import Mathlib

/-!
Shallow embedding of `src/HistoricalTemps.py` (HistoricalTemperatureDatabase).

Modelling conventions:
- Python numbers (floats) are modelled as exact rationals `ℚ`; a value that the
  geocoder may return as NaN is modelled as `Option ℚ` with `none` standing for NaN.
- JSON values are an inductive `Json`; the result of `json.loads` on a response
  body is `Option Json` (`none` = the body is not valid JSON, i.e. `json.loads`
  raises a decode error).
- Python exceptions are the inductive `PyError`; fallible operations return
  `Except PyError _`.  Mutating methods that can raise while leaving the object
  mutated return the post-state explicitly.
- The two external collaborators are oracles passed as arguments: `Geo` for the
  pgeocode lookup and `Net` for `requests.get` against the weather archive.
  `Net` returns `.error e` when `requests.get` raises, and `.ok body` with the
  parse of `results.text` otherwise.  Oracles are pure functions, so a repeated
  request with identical parameters yields an identical response.
-/

/-- JSON values, as produced by `json.loads`.  Objects are association lists
(first occurrence of a key wins on lookup). -/
inductive Json where
  | null : Json
  | bool (b : Bool) : Json
  | num (q : ℚ) : Json
  | str (s : String) : Json
  | arr (elems : List Json) : Json
  | obj (fields : List (String × Json)) : Json

/-- The Python exceptions that the embedded code can raise. -/
inductive PyError where
  | jsonDecodeError : PyError
  | keyError (k : String) : PyError
  | typeError : PyError
  | unboundLocalError : PyError
  | requestException : PyError
  | lookupError : PyError
  | zeroDivisionError : PyError
deriving DecidableEq

/-- The spec groups the loader-side exceptions (unparseable or incomplete
archive response) under the name DataFormatFailure. -/
def PyError.isDataFormatFailure : PyError → Bool
  | .jsonDecodeError => true
  | .keyError _ => true
  | .typeError => true
  | .unboundLocalError => true
  | _ => false

/-- First-match association-list lookup, modelling Python dict subscripting of
a parsed JSON object. -/
def lookupField (k : String) : List (String × Json) → Option Json
  | [] => none
  | f :: fs => if f.1 = k then some f.2 else lookupField k fs

/-- Python subscripting `j[k]` with a string key: succeeds only on a dict,
raising KeyError for a missing key and TypeError on any other value. -/
def jsonSubscript (j : Json) (k : String) : Except PyError Json :=
  match j with
  | .obj fields =>
      match lookupField k fields with
      | some v => .ok v
      | none => .error (.keyError k)
  | _ => .error .typeError

/-- Python iteration over a JSON value: a list yields its elements, a dict its
keys, a string its characters; numbers, booleans and null are not iterable. -/
def jsonIter : Json → Except PyError (List Json)
  | .arr xs => .ok xs
  | .obj fields => .ok (fields.map (fun f => Json.str f.1))
  | .str s => .ok (s.data.map (fun c => Json.str (String.mk [c])))
  | _ => .error .typeError

/-- A stored date: the elements of the `time` array are taken as strings, per
the archive schema; any other element is a format error. -/
def asStr : Json → Except PyError String
  | .str s => .ok s
  | _ => .error .typeError

/-- A stored temperature: the elements of the `temperature_2m_max` array are
taken as numbers (Python booleans count as 0/1); any other element is a
format error. -/
def asNum : Json → Except PyError ℚ
  | .num q => .ok q
  | .bool b => .ok (if b then 1 else 0)
  | _ => .error .typeError

/-- The body of `for times in daily_data: ...` in `_convert_json_to_list`:
walks the iterated items, and on the items equal to the strings `time` and
`temperature_2m_max` assigns `daily_data[times]` to the respective local
variable.  `none` means the local was never assigned. -/
def loopAssign (daily_data : Json) :
    List Json → Option Json → Option Json →
    Except PyError (Option Json × Option Json)
  | [], dates, temps => .ok (dates, temps)
  | times :: rest, dates, temps =>
      match times with
      | Json.str s =>
          if s = "time" then
            match jsonSubscript daily_data "time" with
            | .error e => .error e
            | .ok v => loopAssign daily_data rest (some v) temps
          else if s = "temperature_2m_max" then
            match jsonSubscript daily_data "temperature_2m_max" with
            | .error e => .error e
            | .ok v => loopAssign daily_data rest dates (some v)
          else loopAssign daily_data rest dates temps
      | _ => loopAssign daily_data rest dates temps

/-- HistoricalTemps._convert_json_to_list.  The argument is the parse of the
response text (`none` = malformed JSON).  Looks up `daily`, scans its keys for
`time` and `temperature_2m_max`, and zips the two arrays positionally (Python
zip truncates to the shorter argument).  Elements of the zipped pairs are
interpreted per the archive schema (string date, numeric temperature). -/
def convert_json_to_list (data : Option Json) :
    Except PyError (List (String × ℚ)) := do
  let some j := data | throw PyError.jsonDecodeError
  let daily_data ← jsonSubscript j "daily"
  let items ← jsonIter daily_data
  let (dates?, temps?) ← loopAssign daily_data items none none
  let some datesJ := dates? | throw PyError.unboundLocalError
  let some tempsJ := temps? | throw PyError.unboundLocalError
  let datesL ← jsonIter datesJ
  let tempsL ← jsonIter tempsJ
  (datesL.zip tempsL).mapM (fun p => do
    let d ← asStr p.1
    let t ← asNum p.2
    pure (d, t))

/-- Result row of `pgeocode.Nominatim(us).query_postal_code`: `none` latitude
or longitude stands for NaN (the no-match marker). -/
structure GeoResult where
  latitude : Option ℚ
  longitude : Option ℚ
  place_name : String

/-- The geocoding collaborator, as an oracle from zip code to result row. -/
def Geo : Type := String → GeoResult

/-- Query parameters of the archive GET request built by `_load_temps`. -/
structure Params where
  latitude : Option ℚ
  longitude : Option ℚ
  start_date : String
  end_date : String
  daily : String
  timezone : String

/-- The weather-archive collaborator: `requests.get` as an oracle.  `.error e`
means the request itself raised `e`; `.ok body` carries the parse of the
response text (`none` = body is not valid JSON). -/
def Net : Type := Params → Except PyError (Option Json)

/-- The HistoricalTemps object state.  Field `end_` embeds the Python
attribute `_end` (`end` is reserved in Lean).  `_temp_list` is `None` only
before the constructor finishes, so a constructed object always holds a
list. -/
structure HistoricalTemps where
  zip_code : String
  start : String
  end_ : String
  lat : Option ℚ
  lon : Option ℚ
  loc_name : String
  temp_list : List (String × ℚ)
deriving DecidableEq

/-- HistoricalTemps.zip_to_loc_info: returns the tuple
(latitude, longitude, place name) from the geocoder. -/
def zip_to_loc_info (geo : Geo) (zip_code : String) :
    Option ℚ × Option ℚ × String :=
  let result := geo zip_code
  (result.latitude, result.longitude, result.place_name)

/-- The parameters dict built inside `_load_temps`. -/
def requestParams (st : HistoricalTemps) : Params :=
  { latitude := st.lat, longitude := st.lon,
    start_date := st.start, end_date := st.end_,
    daily := "temperature_2m_max", timezone := "America/Los_Angeles" }

/-- The list produced by one reload: `requests.get` followed by
`_convert_json_to_list(results.text)`. -/
def loadList (net : Net) (st : HistoricalTemps) :
    Except PyError (List (String × ℚ)) := do
  let results ← net (requestParams st)
  convert_json_to_list results

/-- HistoricalTemps._load_temps: reload and assign `self._temp_list`, then
return it.  On an error nothing was assigned, so the caller keeps the
pre-call state. -/
def load_temps (net : Net) (st : HistoricalTemps) :
    Except PyError (List (String × ℚ) × HistoricalTemps) :=
  match loadList net st with
  | .error e => .error e
  | .ok tl => .ok (tl, { st with temp_list := tl })

/-- HistoricalTemps.__init__ with explicit start and end arguments (the
Python defaults are `1950-08-13` and `2023-08-25`).  Note the NaN test is on
`results[1]`, the longitude. -/
def HistoricalTemps.init (geo : Geo) (net : Net) (zip_code : String)
    (start : String) (end_ : String) : Except PyError HistoricalTemps := do
  let results := zip_to_loc_info geo zip_code
  if results.2.1.isNone then throw PyError.lookupError
  let (lat, lon, loc_name) := results
  let st0 : HistoricalTemps :=
    { zip_code := zip_code, start := start, end_ := end_,
      lat := lat, lon := lon, loc_name := loc_name, temp_list := [] }
  let (_, st) ← load_temps net st0
  pure st

/-- HistoricalTemps.__init__ at the Python default date range. -/
def HistoricalTemps.initDefault (geo : Geo) (net : Net) (zip_code : String) :
    Except PyError HistoricalTemps :=
  HistoricalTemps.init geo net zip_code "1950-08-13" "2023-08-25"

/-- The start setter: assign the new start, reload; on any exception restore
the old start, reload again, and raise LookupError.  The second component is
the exception raised, if any; the first is the state the object is left in. -/
def set_start (net : Net) (st : HistoricalTemps) (start : String) :
    HistoricalTemps × Option PyError :=
  let og_start := st.start
  let st1 := { st with start := start }
  match load_temps net st1 with
  | .ok (_, st2) => (st2, none)
  | .error _ =>
      let st3 := { st1 with start := og_start }
      match load_temps net st3 with
      | .ok (_, st4) => (st4, some PyError.lookupError)
      | .error e2 => (st3, some e2)

/-- The end setter, symmetric to `set_start`. -/
def set_end (net : Net) (st : HistoricalTemps) (end_ : String) :
    HistoricalTemps × Option PyError :=
  let og_end := st.end_
  let st1 := { st with end_ := end_ }
  match load_temps net st1 with
  | .ok (_, st2) => (st2, none)
  | .error _ =>
      let st3 := { st1 with end_ := og_end }
      match load_temps net st3 with
      | .ok (_, st4) => (st4, some PyError.lookupError)
      | .error e2 => (st3, some e2)

/-- HistoricalTemps.extreme_days: filter the cached list by temperature
strictly above the threshold.  The method reads `self._temp_list` only and
assigns nothing, so it is embedded as a pure function of the state. -/
def extreme_days (st : HistoricalTemps) (threshold : ℚ) :
    List (String × ℚ) :=
  st.temp_list.filter (fun high_temps => threshold < high_temps.2)

/-- HistoricalTemps.average_temp: reload (which overwrites `_temp_list`),
sum the returned temperatures, and divide by `len(self._temp_list)` — the
length of the list as it stands after the reload.  Division by zero raises. -/
def average_temp (net : Net) (st : HistoricalTemps) :
    Except PyError (ℚ × HistoricalTemps) := do
  let (temperature_list, st1) ← load_temps net st
  let total_temps := temperature_list.foldl (fun acc t => acc + t.2) 0
  if st1.temp_list.length = 0 then throw PyError.zeroDivisionError
  pure (total_temps / (st1.temp_list.length : ℚ), st1)

/-- The sort relation of `sorted(..., key=lambda x: x[1], reverse=True)`:
a row precedes another when its temperature is at least as high.  Python
sorted is stable, which `List.insertionSort` with this relation reproduces:
a row is inserted in front of the first earlier-sorted row it ties with. -/
def tempGE (a b : String × ℚ) : Prop := b.2 ≤ a.2

instance : DecidableRel tempGE := fun a b => inferInstanceAs (Decidable (b.2 ≤ a.2))

instance : IsTotal (String × ℚ) tempGE := ⟨fun a b => le_total b.2 a.2⟩

instance : IsTrans (String × ℚ) tempGE := ⟨fun _ _ _ h1 h2 => le_trans h2 h1⟩

/-- HistoricalTemps.top_x_days: stable-sort the cached list by temperature
descending and take the first `num_days` rows (the Python default for
`num_days` is 10).  Reads `self._temp_list` only; embedded as a pure
function of the state. -/
def top_x_days (st : HistoricalTemps) (num_days : ℕ) :
    List (String × ℚ) :=
  let top_days := st.temp_list.insertionSort tempGE
  top_days.take num_days

/-- Round to the nearest integer, ties to the even integer, as Python round
does. -/
def roundHalfEven (q : ℚ) : ℤ :=
  let f := ⌊q⌋
  let r := q - (f : ℚ)
  if r < 1/2 then f
  else if 1/2 < r then f + 1
  else if 2 ∣ f then f else f + 1

/-- Python round(x, 2): round half to even at two decimal places. -/
def pyRound2 (q : ℚ) : ℚ := (roundHalfEven (q * 100) : ℚ) / 100

/-- One printed line of `compare_average_temps`, with the interpolated
values carried structurally. -/
inductive Line where
  | avgLine (loc_name : String) (avg : ℚ) : Line
  | loadTwoFirst : Line
deriving DecidableEq

/-- compare_average_temps: with a missing dataset, print the guidance line
and do nothing else; otherwise compute both (re-fetching) averages, round
them, and print the two report lines.  Returns the printed lines and the
datasets as the calls leave them. -/
def compare_average_temps (net : Net)
    (dataset_one dataset_two : Option HistoricalTemps) :
    Except PyError (List Line × Option HistoricalTemps × Option HistoricalTemps) :=
  match dataset_one, dataset_two with
  | none, _ => .ok ([Line.loadTwoFirst], dataset_one, dataset_two)
  | _, none => .ok ([Line.loadTwoFirst], dataset_one, dataset_two)
  | some d1, some d2 => do
      let (a1, d1x) ← average_temp net d1
      let (a2, d2x) ← average_temp net d2
      let ds1_avg_temp := pyRound2 a1
      let ds2_avg_temp := pyRound2 a2
      pure ([Line.avgLine d1x.loc_name ds1_avg_temp,
             Line.avgLine d2x.loc_name ds2_avg_temp],
            some d1x, some d2x)

/-- The sort relation of `top_x_days` lifted to index-tagged rows, comparing
temperatures only, exactly as the Python key function does. -/
def tempGEE (a b : ℕ × String × ℚ) : Prop := b.2.2 ≤ a.2.2

instance : DecidableRel tempGEE :=
  fun a b => inferInstanceAs (Decidable (b.2.2 ≤ a.2.2))

/-- Stability property on index-tagged rows: whenever two rows tie on
temperature, the earlier row of the sorted output carries the smaller
original index. -/
def tieIncr (a b : ℕ × String × ℚ) : Prop := a.2.2 = b.2.2 → a.1 < b.1

/-!  Concrete fixtures used by witnesses and counterexamples. -/

/-- A well-formed archive payload: two dates, two temperatures. -/
def wfJson : Json :=
  Json.obj [("daily", Json.obj
    [("time", Json.arr [Json.str "d1", Json.str "d2"]),
     ("temperature_2m_max", Json.arr [Json.num 10, Json.num 20])])]

/-- A payload with mismatched array lengths: two dates, one temperature. -/
def misJson : Json :=
  Json.obj [("daily", Json.obj
    [("time", Json.arr [Json.str "d1", Json.str "d2"]),
     ("temperature_2m_max", Json.arr [Json.num 10])])]

/-- A network oracle that fails on the start or end date `BAD` and otherwise
serves `wfJson`. -/
def netW : Net := fun p =>
  if p.start_date = "BAD" ∨ p.end_date = "BAD" then .error PyError.requestException
  else .ok (some wfJson)

/-- A network oracle whose requests always fail. -/
def netFail : Net := fun _ => .error PyError.requestException

/-- A dataset state consistent with `netW`: its cached series is exactly what
a reload of its range returns. -/
def stW : HistoricalTemps :=
  { zip_code := "94041", start := "1950-08-13", end_ := "2023-08-25",
    lat := some 37, lon := some (-122), loc_name := "Mountain View",
    temp_list := [("d1", 10), ("d2", 20)] }

/-- A dataset state whose cached series (one row) is shorter than what a
reload against `netW` returns (two rows). -/
def stC2 : HistoricalTemps := { stW with temp_list := [("d0", 5)] }

/-- The state `stC2` is left in after a reload against `netW`. -/
def stC2after : HistoricalTemps := { stC2 with temp_list := [("d1", 10), ("d2", 20)] }

/-- A geocoder returning a NaN latitude but a finite longitude. -/
def geoLatNaN : Geo := fun _ =>
  { latitude := none, longitude := some 37, place_name := "Nowhere" }

/-- A geocoder returning a NaN longitude. -/
def geoLonNaN : Geo := fun _ =>
  { latitude := some 37, longitude := none, place_name := "Nowhere" }

/-!  Helper lemmas about the JSON loader. -/

theorem okBind {α β ε : Type} (a : α) (f : α → Except ε β) :
    (Except.ok a >>= f) = f a := rfl

theorem errorBind {α β ε : Type} (e : ε) (f : α → Except ε β) :
    ((Except.error e : Except ε α) >>= f) = Except.error e := rfl

theorem lookupField_mem {k : String} {fields : List (String × Json)} {v : Json}
    (h : lookupField k fields = some v) : k ∈ fields.map Prod.fst := by
  induction fields with
  | nil => simp [lookupField] at h
  | cons f fs ih =>
      by_cases hf : f.1 = k
      · simp [hf]
      · simp only [lookupField, hf, if_false] at h
        simp [ih h]

theorem lookupField_isSome {k : String} {fields : List (String × Json)}
    (h : k ∈ fields.map Prod.fst) : ∃ v, lookupField k fields = some v := by
  induction fields with
  | nil => simp at h
  | cons f fs ih =>
      by_cases hf : f.1 = k
      · exact ⟨f.2, by simp [lookupField, hf]⟩
      · simp only [List.map_cons, List.mem_cons] at h
        rcases h with h | h
        · exact absurd h.symm hf
        · obtain ⟨v, hv⟩ := ih h
          exact ⟨v, by simp [lookupField, hf, hv]⟩

theorem loopAssign_obj (dfields : List (String × Json)) (ks : List String)
    (hsub : ∀ k ∈ ks, k ∈ dfields.map Prod.fst) (d t : Option Json) :
    loopAssign (Json.obj dfields) (ks.map Json.str) d t =
      .ok ((if "time" ∈ ks then lookupField "time" dfields else d),
           (if "temperature_2m_max" ∈ ks then
              lookupField "temperature_2m_max" dfields else t)) := by
  induction ks generalizing d t with
  | nil => simp [loopAssign]
  | cons k rest ih =>
      have hk : k ∈ dfields.map Prod.fst := hsub k (by simp)
      have hrest : ∀ k2 ∈ rest, k2 ∈ dfields.map Prod.fst :=
        fun k2 h2 => hsub k2 (by simp [h2])
      by_cases h1 : k = "time"
      · obtain ⟨v, hv⟩ := lookupField_isSome (h1 ▸ hk)
        subst h1
        rw [List.map_cons]
        show loopAssign (Json.obj dfields)
            (Json.str "time" :: rest.map Json.str) d t = _
        simp only [loopAssign, if_pos rfl, jsonSubscript, hv]
        simp [ih hrest, List.mem_cons, hv]
      · by_cases h2 : k = "temperature_2m_max"
        · obtain ⟨v, hv⟩ := lookupField_isSome (h2 ▸ hk)
          subst h2
          rw [List.map_cons]
          show loopAssign (Json.obj dfields)
              (Json.str "temperature_2m_max" :: rest.map Json.str) d t = _
          simp only [loopAssign, jsonSubscript, hv]
          simp [ih hrest, List.mem_cons, hv]
        · rw [List.map_cons]
          simp only [loopAssign, if_neg h1, if_neg h2]
          rw [ih hrest]
          have h1s : (("time" : String) = k) = False :=
            eq_false (fun h => h1 h.symm)
          have h2s : (("temperature_2m_max" : String) = k) = False :=
            eq_false (fun h => h2 h.symm)
          simp [List.mem_cons, h1s, h2s]

theorem mapM_conv (l : List (String × ℚ)) :
    (l.map (fun p => (Json.str p.1, Json.num p.2))).mapM
      (fun p : Json × Json => do
        let d ← asStr p.1
        let t ← asNum p.2
        pure (d, t)) = (.ok l : Except PyError (List (String × ℚ))) := by
  induction l with
  | nil => rfl
  | cons x xs ih =>
      rw [List.map_cons, List.mapM_cons, ih]
      rfl

/-- Core lemma: on a payload whose `daily` object carries a `time` array of
strings and a `temperature_2m_max` array of numbers, the loader returns the
positional zip of the two arrays (Python zip truncates to the shorter). -/
theorem convert_wellformed (fields dfields : List (String × Json))
    (ds : List String) (ts : List ℚ)
    (hd : lookupField "daily" fields = some (Json.obj dfields))
    (ht : lookupField "time" dfields = some (Json.arr (ds.map Json.str)))
    (hm : lookupField "temperature_2m_max" dfields =
            some (Json.arr (ts.map Json.num))) :
    convert_json_to_list (some (Json.obj fields)) = .ok (ds.zip ts) := by
  have hks : ∀ k ∈ dfields.map Prod.fst, k ∈ dfields.map Prod.fst := fun _ h => h
  have hitems : (dfields.map (fun f => Json.str f.1)) =
      (dfields.map Prod.fst).map Json.str := by
    rw [List.map_map]
    rfl
  have hloop := loopAssign_obj dfields (dfields.map Prod.fst) hks none none
  rw [if_pos (lookupField_mem ht), if_pos (lookupField_mem hm), ht, hm] at hloop
  have hzip : (ds.map Json.str).zip (ts.map Json.num) =
      (ds.zip ts).map (fun p => (Json.str p.1, Json.num p.2)) := by
    rw [List.zip_map]
    rfl
  simp only [convert_json_to_list, jsonSubscript, hd, okBind, jsonIter, hitems,
    hloop, hzip, mapM_conv]

/-!  Helper lemmas about the stable sort of `top_x_days`. -/

theorem map_snd_insertionSort (l : List (ℕ × String × ℚ)) :
    (l.insertionSort tempGEE).map Prod.snd =
      (l.map Prod.snd).insertionSort tempGE := by
  induction l with
  | nil => rfl
  | cons x xs ih =>
      simp only [List.insertionSort, List.map_cons]
      rw [List.map_orderedInsert tempGEE tempGE Prod.snd _ x
        (fun a _ => Iff.rfl) (fun a _ => Iff.rfl), ih]

theorem le_fst_of_mem_enumFrom {l : List (String × ℚ)} {n : ℕ}
    {y : ℕ × String × ℚ} (h : y ∈ l.enumFrom n) : n ≤ y.1 := by
  induction l generalizing n with
  | nil => simp [List.enumFrom] at h
  | cons x xs ih =>
      simp only [List.enumFrom, List.mem_cons] at h
      rcases h with h | h
      · simp [h]
      · exact Nat.le_of_succ_le (ih h)

theorem pairwise_fst_lt_enumFrom (l : List (String × ℚ)) (n : ℕ) :
    (l.enumFrom n).Pairwise (fun a b => a.1 < b.1) := by
  induction l generalizing n with
  | nil => simp [List.enumFrom]
  | cons x xs ih =>
      simp only [List.enumFrom]
      exact List.Pairwise.cons
        (fun y hy => Nat.lt_of_lt_of_le (Nat.lt_succ_self n)
          (le_fst_of_mem_enumFrom hy))
        (ih (n + 1))

theorem pairwise_tieIncr_orderedInsert (x : ℕ × String × ℚ)
    (l : List (ℕ × String × ℚ))
    (hidx : ∀ y ∈ l, x.1 < y.1) (hl : l.Pairwise tieIncr) :
    (l.orderedInsert tempGEE x).Pairwise tieIncr := by
  induction l with
  | nil => simp [tieIncr]
  | cons b bs ih =>
      simp only [List.orderedInsert]
      by_cases h : tempGEE x b
      · rw [if_pos h]
        exact List.Pairwise.cons (fun y hy _ => hidx y hy) hl
      · rw [if_neg h]
        rcases List.pairwise_cons.mp hl with ⟨hb, hbs⟩
        refine List.Pairwise.cons ?_
          (ih (fun y hy => hidx y (List.mem_cons_of_mem b hy)) hbs)
        intro y hy
        rcases (List.mem_orderedInsert tempGEE).mp hy with rfl | hy2
        · intro htie
          exact absurd (le_of_eq htie) h
        · exact hb y hy2

theorem pairwise_tieIncr_insertionSort (l : List (ℕ × String × ℚ))
    (h : l.Pairwise (fun a b => a.1 < b.1)) :
    (l.insertionSort tempGEE).Pairwise tieIncr := by
  induction l with
  | nil => simp
  | cons x xs ih =>
      rcases List.pairwise_cons.mp h with ⟨hx, hxs⟩
      simp only [List.insertionSort]
      refine pairwise_tieIncr_orderedInsert x _ ?_ (ih hxs)
      intro y hy
      exact hx y ((List.mem_insertionSort tempGEE).mp hy)

/-!  Helper lemmas about `average_temp`. -/

theorem foldl_add_snd (l : List (String × ℚ)) (a : ℚ) :
    l.foldl (fun acc t => acc + t.2) a = a + (l.map Prod.snd).sum := by
  induction l generalizing a with
  | nil => simp
  | cons x xs ih => simp [ih, add_assoc]

theorem average_temp_eq (net : Net) (st : HistoricalTemps)
    (tl : List (String × ℚ)) (h : loadList net st = .ok tl) (hne : tl ≠ []) :
    average_temp net st =
      .ok ((tl.map Prod.snd).sum / (tl.length : ℚ),
           { st with temp_list := tl }) := by
  have hlen : ({ st with temp_list := tl } : HistoricalTemps).temp_list.length ≠ 0 := by
    simpa [List.length_eq_zero] using hne
  simp only [average_temp, load_temps, h, okBind]
  simp [hlen, foldl_add_snd]
  rfl

theorem average_temp_def_error (net : Net) (st : HistoricalTemps)
    (e : PyError) (h : loadList net st = .error e) :
    average_temp net st = .error e := by
  simp [average_temp, load_temps, h, errorBind]

theorem average_temp_def_nil (net : Net) (st : HistoricalTemps)
    (h : loadList net st = .ok []) :
    average_temp net st = .error PyError.zeroDivisionError := by
  simp only [average_temp, load_temps, h, okBind]
  rfl

theorem average_temp_state (net : Net) (st : HistoricalTemps) (a : ℚ)
    (st2 : HistoricalTemps) (h : average_temp net st = .ok (a, st2)) :
    ∃ tl, loadList net st = .ok tl ∧ st2 = { st with temp_list := tl } ∧
      tl ≠ [] ∧ a = (tl.map Prod.snd).sum / (tl.length : ℚ) := by
  cases hload : loadList net st with
  | error e =>
      rw [average_temp_def_error net st e hload] at h
      cases h
  | ok tl =>
      by_cases hz : tl = []
      · subst hz
        rw [average_temp_def_nil net st hload] at h
        cases h
      · rw [average_temp_eq net st tl hload hz] at h
        injection h with h2
        injection h2 with ha hst
        exact ⟨tl, rfl, hst.symm, hz, ha.symm⟩

/-!  Claim theorems. -/

/-- C1: for every dataset whose cached series matches a reload of its current
range (as holds for every reachable dataset under a fixed oracle), and every
new start (or end) date whose reload fails, the setter restores the previous
field value, reloads for the restored range, and raises LookupError, leaving
the range and the series equal to their pre-mutation values. -/
theorem start_end_setter_rollback (net : Net) (st : HistoricalTemps)
    (ns ne : String) (e1 e2 : PyError)
    (hcons : loadList net st = .ok st.temp_list)
    (h1 : loadList net { st with start := ns } = .error e1)
    (h2 : loadList net { st with end_ := ne } = .error e2) :
    set_start net st ns = (st, some PyError.lookupError) ∧
    set_end net st ne = (st, some PyError.lookupError) := by
  have est : ({ { st with start := ns } with start := st.start } :
      HistoricalTemps) = st := rfl
  have eend : ({ { st with end_ := ne } with end_ := st.end_ } :
      HistoricalTemps) = st := rfl
  have ett : ({ st with temp_list := st.temp_list } : HistoricalTemps) = st := rfl
  constructor
  · simp only [set_start, load_temps, h1, est, hcons, ett]
  · simp only [set_end, load_temps, h2, eend, hcons, ett]

/-- Witness for C1: against the oracle `netW`, which rejects the date `BAD`
and otherwise serves the fixed payload `wfJson`, mutating `stW` to the bad
start (or end) date leaves the state exactly `stW` and raises LookupError. -/
theorem start_end_setter_rollback_w :
    set_start netW stW "BAD" = (stW, some PyError.lookupError) ∧
    set_end netW stW "BAD" = (stW, some PyError.lookupError) :=
  start_end_setter_rollback netW stW "BAD" "BAD"
    PyError.requestException PyError.requestException rfl rfl rfl

/-- C10: if the reload for the new start (or end) date fails and the rollback
reload fails as well, the setter propagates the second reload error itself
(not LookupError), with the range field restored and the cached series left
at its pre-mutation contents. -/
theorem setter_double_failure_propagates (net : Net) (st : HistoricalTemps)
    (ns ne : String) (e1 e2 e3 : PyError)
    (h1 : loadList net { st with start := ns } = .error e1)
    (h2 : loadList net st = .error e2)
    (h3 : loadList net { st with end_ := ne } = .error e3) :
    set_start net st ns = (st, some e2) ∧
    set_end net st ne = (st, some e2) := by
  have est : ({ { st with start := ns } with start := st.start } :
      HistoricalTemps) = st := rfl
  have eend : ({ { st with end_ := ne } with end_ := st.end_ } :
      HistoricalTemps) = st := rfl
  constructor
  · simp only [set_start, load_temps, h1, est, h2]
  · simp only [set_end, load_temps, h3, eend, h2]

/-- Witness for C10: against an oracle whose requests always fail with
requestException, a setter call leaves the state untouched and raises
requestException (the rollback reload error), not LookupError. -/
theorem setter_double_failure_propagates_w :
    set_start netFail stW "X" = (stW, some PyError.requestException) ∧
    set_end netFail stW "X" = (stW, some PyError.requestException) :=
  setter_double_failure_propagates netFail stW "X" "X"
    PyError.requestException PyError.requestException PyError.requestException
    rfl rfl rfl

/-- C2 counterexample: `stC2` caches one row while a reload returns two rows
summing to 30.  The code returns 30 / 2 = 15, but the claim formula
(sum of reloaded temperatures divided by the OLD cached length 1) gives 30,
so `average_temp` does not divide by the old cached length. -/
theorem average_temp_cached_denominator_ce :
    average_temp netW stC2 = .ok (15, stC2after) ∧
    (stC2after.temp_list.map Prod.snd).sum / (stC2.temp_list.length : ℚ) = 30 ∧
    (15 : ℚ) ≠ 30 := by
  refine ⟨?_, ?_, by norm_num⟩
  · rw [average_temp_eq netW stC2 [("d1", 10), ("d2", 20)] rfl (by simp)]
    norm_num [stC2after]
  · norm_num [stC2after, stC2, stW]

/-- C2 (amended): `average_temp` reloads the series fresh and returns the sum
of the reloaded temperatures divided by the length of the RELOADED series;
the cached series has been overwritten by the reload before the division, so
the denominator is the stored series length only in that post-overwrite
sense. -/
theorem average_temp_reloaded_denominator (net : Net) (st : HistoricalTemps)
    (tl : List (String × ℚ)) (h : loadList net st = .ok tl) (hne : tl ≠ []) :
    average_temp net st =
      .ok ((tl.map Prod.snd).sum / (tl.length : ℚ),
           { st with temp_list := tl }) :=
  average_temp_eq net st tl h hne

/-- Witness for C2 (amended): reloading `stC2` against `netW` yields the
two-row series, and the average divides by its length 2. -/
theorem average_temp_reloaded_denominator_w :
    average_temp netW stC2 =
      .ok ((([("d1", (10 : ℚ)), ("d2", 20)].map Prod.snd).sum / 2),
           { stC2 with temp_list := [("d1", 10), ("d2", 20)] }) :=
  average_temp_reloaded_denominator netW stC2 [("d1", 10), ("d2", 20)]
    rfl (by simp)

/-- C3 counterexample: a geocoder row with NaN latitude but finite longitude
does NOT make creation fail: `__init__` tests `results[1]`, the longitude,
so a dataset is produced (with `lat = none`). -/
theorem init_nan_latitude_ce :
    (geoLatNaN "00000").latitude = none ∧
    HistoricalTemps.init geoLatNaN netW "00000" "1950-08-13" "2023-08-25" =
      .ok { zip_code := "00000", start := "1950-08-13", end_ := "2023-08-25",
            lat := none, lon := some 37, loc_name := "Nowhere",
            temp_list := [("d1", 10), ("d2", 20)] } :=
  ⟨rfl, rfl⟩

/-- C3 (amended): creation fails with LookupError, producing no object, for
every zip code whose geocoding row has a non-finite LONGITUDE (the code
checks `results[1]`; the real geocoder returns NaN for both coordinates on a
no-match, so the behaviours coincide there). -/
theorem init_nan_longitude_fails (geo : Geo) (net : Net) (z s e : String)
    (h : (geo z).longitude = none) :
    HistoricalTemps.init geo net z s e = .error PyError.lookupError := by
  simp only [HistoricalTemps.init, zip_to_loc_info, h]
  rfl

/-- Witness for C3 (amended): a geocoder with NaN longitude makes creation
fail with LookupError even though the network oracle would serve data. -/
theorem init_nan_longitude_fails_w :
    HistoricalTemps.init geoLonNaN netW "99999" "1950-08-13" "2023-08-25" =
      .error PyError.lookupError :=
  init_nan_longitude_fails geoLonNaN netW "99999" "1950-08-13" "2023-08-25" rfl

/-- C9: a successful `average_temp` call overwrites the cached series with
the freshly reloaded one before dividing: afterwards the stored series equals
the reloaded series, the returned average divides by that reloaded length,
and every other field is unchanged.  (`extreme_days` and `top_x_days` assign
no attribute; they are embedded as pure functions of the state.) -/
theorem average_temp_mutates_cache (net : Net) (st : HistoricalTemps)
    (a : ℚ) (st2 : HistoricalTemps)
    (h : average_temp net st = .ok (a, st2)) :
    loadList net st = .ok st2.temp_list ∧
    a = (st2.temp_list.map Prod.snd).sum / (st2.temp_list.length : ℚ) ∧
    st2.zip_code = st.zip_code ∧ st2.start = st.start ∧
    st2.end_ = st.end_ ∧ st2.lat = st.lat ∧ st2.lon = st.lon ∧
    st2.loc_name = st.loc_name := by
  obtain ⟨tl, hload, hst, hne, ha⟩ := average_temp_state net st a st2 h
  subst hst
  exact ⟨hload, ha, rfl, rfl, rfl, rfl, rfl, rfl⟩

/-- Witness for C9: the call on `stC2` (one cached row) leaves the state with
the two reloaded rows and divides by 2. -/
theorem average_temp_mutates_cache_w :
    loadList netW stC2 = .ok stC2after.temp_list ∧
    (15 : ℚ) = (stC2after.temp_list.map Prod.snd).sum /
      (stC2after.temp_list.length : ℚ) ∧
    stC2after.zip_code = stC2.zip_code ∧ stC2after.start = stC2.start ∧
    stC2after.end_ = stC2.end_ ∧ stC2after.lat = stC2.lat ∧
    stC2after.lon = stC2.lon ∧ stC2after.loc_name = stC2.loc_name :=
  average_temp_mutates_cache netW stC2 15 stC2after
    (by rw [average_temp_eq netW stC2 [("d1", 10), ("d2", 20)] rfl (by simp)]
        norm_num [stC2after])

/-- C4: `extreme_days t` is exactly the filter of the cached series keeping
the rows with temperature strictly above t — a subsequence in original
order — and in particular it is empty when t is at or above every observed
temperature and the full series when t is below every observed temperature. -/
theorem extreme_days_filter (st : HistoricalTemps) (t : ℚ) :
    extreme_days st t = st.temp_list.filter (fun p => t < p.2) ∧
    (extreme_days st t).Sublist st.temp_list ∧
    ((∀ p ∈ st.temp_list, p.2 ≤ t) → extreme_days st t = []) ∧
    ((∀ p ∈ st.temp_list, t < p.2) → extreme_days st t = st.temp_list) := by
  refine ⟨rfl, List.filter_sublist st.temp_list, ?_, ?_⟩
  · intro h
    simp only [extreme_days, List.filter_eq_nil_iff, decide_eq_true_eq]
    exact fun p hp => not_lt.mpr (h p hp)
  · intro h
    simp only [extreme_days, List.filter_eq_self, decide_eq_true_eq]
    exact h

/-- Witness for C4: on the two-row series of `stW` (temperatures 10 and 20),
threshold 50 keeps nothing and threshold 0 keeps everything. -/
theorem extreme_days_filter_w :
    extreme_days stW 50 = [] ∧ extreme_days stW 0 = stW.temp_list :=
  ⟨(extreme_days_filter stW 50).2.2.1 (by decide),
   (extreme_days_filter stW 0).2.2.2 (by decide)⟩

/-- C5: `top_x_days n` takes the first n rows of the stable descending sort
of the cached series: its length is n capped at the series length, it is
sorted descending by temperature, the full sorted list is a permutation of
the series, and ties keep original series order (sorting the index-tagged
series with the same comparison leaves tied indices increasing). -/
theorem top_x_days_spec (st : HistoricalTemps) (n : ℕ) :
    top_x_days st n = (st.temp_list.insertionSort tempGE).take n ∧
    (top_x_days st n).length = min n st.temp_list.length ∧
    (top_x_days st n).Pairwise tempGE ∧
    (st.temp_list.insertionSort tempGE).Perm st.temp_list ∧
    st.temp_list.insertionSort tempGE =
      (st.temp_list.enum.insertionSort tempGEE).map Prod.snd ∧
    (st.temp_list.enum.insertionSort tempGEE).Pairwise tieIncr := by
  refine ⟨rfl, ?_, ?_, List.perm_insertionSort tempGE st.temp_list, ?_, ?_⟩
  · simp [top_x_days, List.length_insertionSort]
  · exact List.Pairwise.sublist (List.take_sublist n _)
      (List.sorted_insertionSort tempGE st.temp_list)
  · rw [map_snd_insertionSort st.temp_list.enum,
      show st.temp_list.enum.map Prod.snd = st.temp_list from
        List.enumFrom_map_snd 0 st.temp_list]
  · exact pairwise_tieIncr_insertionSort st.temp_list.enum
      (pairwise_fst_lt_enumFrom st.temp_list 0)

/-- C6 counterexample: the payload `misJson` has two dates but only one
temperature, yet the loader does not fail: Python zip silently truncates, so
it returns the one-row series.  Mismatched array lengths therefore do not
raise a DataFormatFailure-class error. -/
theorem mismatched_lengths_truncate_ce :
    convert_json_to_list (some misJson) = .ok [("d1", 10)] := rfl

/-- C6 (amended): malformed JSON and a missing `daily` key each fail with a
DataFormatFailure-class error (json decode error and KeyError respectively);
mismatched `time` / `temperature_2m_max` lengths do NOT fail — the loader
returns the positional zip truncated to the shorter array. -/
theorem convert_failures_spec :
    (convert_json_to_list none = .error PyError.jsonDecodeError ∧
      PyError.jsonDecodeError.isDataFormatFailure = true) ∧
    (∀ fields : List (String × Json), lookupField "daily" fields = none →
      convert_json_to_list (some (Json.obj fields)) =
        .error (PyError.keyError "daily") ∧
      (PyError.keyError "daily").isDataFormatFailure = true) ∧
    (∀ (fields dfields : List (String × Json)) (ds : List String) (ts : List ℚ),
      lookupField "daily" fields = some (Json.obj dfields) →
      lookupField "time" dfields = some (Json.arr (ds.map Json.str)) →
      lookupField "temperature_2m_max" dfields =
        some (Json.arr (ts.map Json.num)) →
      convert_json_to_list (some (Json.obj fields)) = .ok (ds.zip ts)) := by
  refine ⟨⟨rfl, rfl⟩, ?_, ?_⟩
  · intro fields h
    refine ⟨?_, rfl⟩
    simp only [convert_json_to_list, jsonSubscript, h]
    rfl
  · intro fields dfields ds ts hd ht hm
    exact convert_wellformed fields dfields ds ts hd ht hm

/-- Witness for C6 (amended): a payload without `daily` fails with KeyError,
and the mismatched payload `misJson` is returned truncated to one row. -/
theorem convert_failures_spec_w :
    (convert_json_to_list (some (Json.obj [("x", Json.null)])) =
       .error (PyError.keyError "daily") ∧
     (PyError.keyError "daily").isDataFormatFailure = true) ∧
    convert_json_to_list (some misJson) =
      .ok (["d1", "d2"].zip [(10 : ℚ)]) :=
  ⟨convert_failures_spec.2.1 [("x", Json.null)] rfl,
   convert_failures_spec.2.2 [("daily", Json.obj
      [("time", Json.arr [Json.str "d1", Json.str "d2"]),
       ("temperature_2m_max", Json.arr [Json.num 10])])]
     [("time", Json.arr [Json.str "d1", Json.str "d2"]),
      ("temperature_2m_max", Json.arr [Json.num 10])]
     ["d1", "d2"] [10] rfl rfl rfl⟩

/-- C7: for every payload whose `daily` object holds a `time` array of
strings and a `temperature_2m_max` array of numbers, the loader returns their
positional zip as (date, temperature) pairs in response order; with equal
lengths the projections recover both arrays exactly. -/
theorem convert_zips_payload (fields dfields : List (String × Json))
    (ds : List String) (ts : List ℚ)
    (hd : lookupField "daily" fields = some (Json.obj dfields))
    (ht : lookupField "time" dfields = some (Json.arr (ds.map Json.str)))
    (hm : lookupField "temperature_2m_max" dfields =
            some (Json.arr (ts.map Json.num))) :
    convert_json_to_list (some (Json.obj fields)) = .ok (ds.zip ts) ∧
    (ds.length = ts.length →
      (ds.zip ts).map Prod.fst = ds ∧ (ds.zip ts).map Prod.snd = ts) := by
  refine ⟨convert_wellformed fields dfields ds ts hd ht hm, fun hlen => ?_⟩
  exact ⟨List.map_fst_zip ds ts (le_of_eq hlen),
         List.map_snd_zip ds ts (ge_of_eq hlen)⟩

/-- Witness for C7: the well-formed two-row payload `wfJson` is zipped into
its two (date, temperature) pairs in order. -/
theorem convert_zips_payload_w :
    convert_json_to_list (some wfJson) =
      .ok (["d1", "d2"].zip [(10 : ℚ), 20]) ∧
    (["d1", "d2"].zip [(10 : ℚ), 20]).map Prod.fst = ["d1", "d2"] ∧
    (["d1", "d2"].zip [(10 : ℚ), 20]).map Prod.snd = [10, 20] :=
  ⟨(convert_zips_payload [("daily", Json.obj
      [("time", Json.arr [Json.str "d1", Json.str "d2"]),
       ("temperature_2m_max", Json.arr [Json.num 10, Json.num 20])])]
     [("time", Json.arr [Json.str "d1", Json.str "d2"]),
      ("temperature_2m_max", Json.arr [Json.num 10, Json.num 20])]
     ["d1", "d2"] [10, 20] rfl rfl rfl).1,
   (convert_zips_payload [("daily", Json.obj
      [("time", Json.arr [Json.str "d1", Json.str "d2"]),
       ("temperature_2m_max", Json.arr [Json.num 10, Json.num 20])])]
     [("time", Json.arr [Json.str "d1", Json.str "d2"]),
      ("temperature_2m_max", Json.arr [Json.num 10, Json.num 20])]
     ["d1", "d2"] [10, 20] rfl rfl rfl).2 rfl⟩

/-- C8: with either dataset slot empty, `compare_average_temps` prints only
the guidance line and leaves both slots untouched, independently of the
network oracle (so no network access and no average computation happen); with
both present and both averages succeeding, it prints the two report lines
carrying each location name and its average rounded to two decimals. -/
theorem compare_average_temps_spec :
    (∀ (net : Net) (ds2 : Option HistoricalTemps),
      compare_average_temps net none ds2 =
        .ok ([Line.loadTwoFirst], none, ds2)) ∧
    (∀ (net : Net) (d1 : HistoricalTemps),
      compare_average_temps net (some d1) none =
        .ok ([Line.loadTwoFirst], some d1, none)) ∧
    (∀ (net : Net) (d1 d2 : HistoricalTemps) (a1 a2 : ℚ)
        (d1x d2x : HistoricalTemps),
      average_temp net d1 = .ok (a1, d1x) →
      average_temp net d2 = .ok (a2, d2x) →
      compare_average_temps net (some d1) (some d2) =
        .ok ([Line.avgLine d1.loc_name (pyRound2 a1),
              Line.avgLine d2.loc_name (pyRound2 a2)],
             some d1x, some d2x)) := by
  refine ⟨fun net ds2 => by cases ds2 <;> rfl, fun net d1 => rfl, ?_⟩
  intro net d1 d2 a1 a2 d1x d2x h1 h2
  obtain ⟨tl1, _, hst1, _, _⟩ := average_temp_state net d1 a1 d1x h1
  obtain ⟨tl2, _, hst2, _, _⟩ := average_temp_state net d2 a2 d2x h2
  have hloc1 : d1x.loc_name = d1.loc_name := by rw [hst1]
  have hloc2 : d2x.loc_name = d2.loc_name := by rw [hst2]
  simp only [compare_average_temps, h1, h2, okBind, hloc1, hloc2]
  rfl

/-- Witness for C8: both guidance branches on concrete slots, and the
both-present branch on `stC2` and `stW` against `netW` (each average is 15,
and 15 rounds to itself). -/
theorem compare_average_temps_spec_w :
    compare_average_temps netW none (some stW) =
      .ok ([Line.loadTwoFirst], none, some stW) ∧
    compare_average_temps netW (some stW) none =
      .ok ([Line.loadTwoFirst], some stW, none) ∧
    compare_average_temps netW (some stC2) (some stW) =
      .ok ([Line.avgLine stC2.loc_name (pyRound2 15),
            Line.avgLine stW.loc_name (pyRound2 15)],
           some stC2after, some stW) :=
  ⟨compare_average_temps_spec.1 netW (some stW),
   compare_average_temps_spec.2.1 netW stW,
   compare_average_temps_spec.2.2 netW stC2 stW 15 15 stC2after stW
     (by rw [average_temp_eq netW stC2 [("d1", 10), ("d2", 20)] rfl (by simp)]
         norm_num [stC2after])
     (by rw [average_temp_eq netW stW [("d1", 10), ("d2", 20)] rfl (by simp)]
         norm_num [stW])⟩
